import Mathlib

/-!
Verification of the TMInterface Python client (donadigo/TMInterfaceClientPython).

This file gives a shallow embedding of the protocol-relevant parts of
`tminterface/interface.py`, `tminterface/structs.py` and `tminterface/util.py`
and proves or refutes the frozen specification claims about them.

Bytes are modelled as `Nat` (each produced byte is `< 256`), buffers as
`List Nat`, Python ints as `Int`.  Machine arithmetic (numpy `int32`,
`struct.pack`) is modelled with explicit `% 2^w` wrap-around.
-/

/-! ### struct.pack / struct.unpack primitives -/

/-- Little-endian base-256 digits of `n`, exactly `w` bytes (`struct.pack` layout). -/
def natToLE : Nat → Nat → List Nat
  | 0, _ => []
  | w + 1, n => n % 256 :: natToLE w (n / 256)

/-- The `Nat` denoted by a little-endian byte list (`struct.unpack`, unsigned). -/
def leToNat : List Nat → Nat
  | [] => 0
  | b :: bs => b + 256 * leToNat bs

/-- Two's-complement little-endian encoding of the integer `n` in `w` bytes.
This is the byte output of `struct.pack` for any of the `w`-byte integer
formats; signed and unsigned formats produce the same bytes and differ only
in the range of accepted inputs (out-of-range inputs raise in Python). -/
def packInt (w : Nat) (n : Int) : List Nat :=
  natToLE w (n % ((256 : Int) ^ w)).toNat

/-- Unsigned `struct.unpack` of a little-endian byte list. -/
def unpackUnsigned (bs : List Nat) : Int :=
  (leToNat bs : Int)

/-- Signed (two's complement) `struct.unpack` of a little-endian byte list. -/
def unpackSigned (bs : List Nat) : Int :=
  if 2 * leToNat bs < 256 ^ bs.length then (leToNat bs : Int)
  else (leToNat bs : Int) - (256 : Int) ^ bs.length

/-- struct.unpack with its length check: `none` models `struct.error`
(malformed / short input). -/
def structUnpack (w : Nat) (signed : Bool) (bs : List Nat) : Option Int :=
  if bs.length = w then some (if signed then unpackSigned bs else unpackUnsigned bs)
  else none

/-! ### tminterface/util.py : analog value transforms -/

/-- Wrap-around of an integer into the `numpy.int32` range, i.e. the value
represented by the low 32 bits in two's complement. -/
def toInt32 (x : Int) : Int :=
  (x + 2 ^ 31) % 2 ^ 32 - 2 ^ 31

/-- Wrap-around of an integer into the `numpy.int64` range. -/
def toInt64 (x : Int) : Int :=
  (x + 2 ^ 63) % 2 ^ 64 - 2 ^ 63

/-- util.data_to_analog_value: `val = int32(data); val <<= 8; val >>= 8; return -val`.
The left shift is `int32` arithmetic (wraps mod 2^32); the right shift is an
arithmetic shift, i.e. floor division by 256 (Lean's `/` on `Int` is floor
division for a positive divisor). -/
def data_to_analog_value (data : Int) : Int :=
  -(toInt32 (toInt32 data * 256) / 256)

/-- util.analog_value_to_data: `value = -value; value <<= int32(8); value >>= int32(8)`.
Here `value` is a Python int, promoted by numpy to a 64-bit integer for the
shifts (on the ranges relevant to the claims, 32-bit and 64-bit promotion
agree: no wrap-around occurs in either). -/
def analog_value_to_data (value : Int) : Int :=
  toInt64 (-value * 256) / 256

/-! ### Message (interface.py) -/

/-- interface.Message: message type tag, error code, and the accumulated
payload bytes (`data`). -/
structure Message where
  _type : Int
  error_code : Int
  data : List Nat
  deriving Repr, DecidableEq

def Message.write_uint8 (m : Message) (n : Int) : Message :=
  { m with data := m.data ++ packInt 1 n }

def Message.write_int16 (m : Message) (n : Int) : Message :=
  { m with data := m.data ++ packInt 2 n }

def Message.write_uint16 (m : Message) (n : Int) : Message :=
  { m with data := m.data ++ packInt 2 n }

def Message.write_int32 (m : Message) (n : Int) : Message :=
  { m with data := m.data ++ packInt 4 n }

def Message.write_uint32 (m : Message) (n : Int) : Message :=
  { m with data := m.data ++ packInt 4 n }

def Message.write_buffer (m : Message) (buf : List Nat) : Message :=
  { m with data := m.data ++ buf }

/-- Message.__len__: 8 header bytes (type + error code) plus the payload. -/
def Message.length (m : Message) : Nat :=
  8 + m.data.length

/-- Message.write_int: the sized-integer helper.  Picks the signed or
unsigned `struct` format by width, by sign, and by the `0xFFFFFFFF`
sentinel; sizes other than 1, 2, 4 write nothing. -/
def Message.write_int (m : Message) (n : Int) (size : Nat) : Message :=
  if size = 1 then m.write_uint8 n
  else if size = 2 then
    if n < 0 then m.write_int16 n else m.write_uint16 n
  else if size = 4 then
    if n = 0xffffffff then m.write_uint32 n else m.write_int32 n
  else m

/-- The condition under which Python's `struct.pack` accepts the input of
`Message.write_int` without raising (our writers are total; theorems carry
this as a hypothesis where it matters). -/
def writeIntOk (n : Int) (size : Nat) : Prop :=
  if size = 1 then 0 ≤ n ∧ n < 256
  else if size = 2 then -(2 ^ 15) ≤ n ∧ n < 2 ^ 16
  else if size = 4 then n = 0xffffffff ∨ (-(2 ^ 31) ≤ n ∧ n < 2 ^ 31)
  else True

/-- The bytes `Message.write_int` appends for a given value and size
(signed and unsigned formats of equal width produce the same bytes). -/
def writeIntBytes (n : Int) (size : Nat) : List Nat :=
  if size = 1 then packInt 1 n
  else if size = 2 then packInt 2 n
  else if size = 4 then packInt 4 n
  else []

/-! ### Protocol constants (interface.py) -/

def RESPONSE_TOO_LONG : Int := 1
def CLIENT_ALREADY_REGISTERED : Int := 2
def NO_EVENT_BUFFER : Int := 3
def NO_PLAYER_INFO : Int := 4
def COMMAND_ALREADY_REGISTERED : Int := 5

def MAXINT32 : Int := 2 ^ 31 - 1

/-! interface.MessageType: `IntEnum` with `auto()` values starting at 1. -/

namespace MessageType

def S_RESPONSE : Int := 1
def S_ON_REGISTERED : Int := 2
def S_SHUTDOWN : Int := 3
def S_ON_RUN_STEP : Int := 4
def S_ON_SIM_BEGIN : Int := 5
def S_ON_SIM_STEP : Int := 6
def S_ON_SIM_END : Int := 7
def S_ON_CHECKPOINT_COUNT_CHANGED : Int := 8
def S_ON_LAPS_COUNT_CHANGED : Int := 9
def S_ON_CUSTOM_COMMAND : Int := 10
def S_ON_BRUTEFORCE_EVALUATE : Int := 11
def C_REGISTER : Int := 12
def C_DEREGISTER : Int := 13
def C_PROCESSED_CALL : Int := 14
def C_SET_INPUT_STATES : Int := 15

end MessageType

/-! ### TMInterface._write_vector (interface.py) -/

/-- The `vector` / `field_sizes` argument pair of `TMInterface._write_vector`.
The Python code distinguishes the two shapes with `isinstance(field_sizes, list)`:
either a flat list of ints with one scalar field size, or a list of tuples with
a list of per-field sizes. -/
inductive VectorArg where
  | scalars (v : List Int) (field_sizes : Nat)
  | tuples (v : List (List Int)) (field_sizes : List Nat)
  deriving Repr, DecidableEq

/-- `item_size` as computed by `_write_vector` (sum of field sizes for tuples). -/
def VectorArg.item_size : VectorArg → Nat
  | .scalars _ s => s
  | .tuples _ sizes => sizes.sum

/-- `len(vector)` (`vsize` in the source). -/
def VectorArg.count : VectorArg → Nat
  | .scalars v _ => v.length
  | .tuples v _ => v.length

/-- Well-formedness of a tuple vector: each tuple supplies exactly one value
per field size.  Python raises `IndexError` when a tuple is longer than
`field_sizes` and silently writes a shorter tuple only partially; the claims
are about well-formed vectors. -/
def VectorArg.wf : VectorArg → Prop
  | .scalars _ _ => True
  | .tuples v sizes => ∀ e ∈ v, e.length = sizes.length

/-- All elements are accepted by `struct.pack` at their declared size
(Python raises mid-loop otherwise). -/
def VectorArg.inRange : VectorArg → Prop
  | .scalars v s => ∀ e ∈ v, writeIntOk e s
  | .tuples v sizes => ∀ e ∈ v, ∀ p ∈ e.zip sizes, writeIntOk p.1 p.2

/-- The element bytes a successful `_write_vector` appends after the count. -/
def VectorArg.encodeElems : VectorArg → List Nat
  | .scalars v s => v.flatMap (fun e => writeIntBytes e s)
  | .tuples v sizes => v.flatMap (fun e => (e.zip sizes).flatMap (fun p => writeIntBytes p.1 p.2))

/-- TMInterface._write_vector.  Returns the updated message and the Python
return value (`False`: not even the 4-byte count fits, nothing written;
`True` otherwise).  On capacity overflow it writes a zero count and sets
`error_code = RESPONSE_TOO_LONG`; otherwise it writes the count followed by
every element. -/
def write_vector (buffer_size : Nat) (msg : Message) (arg : VectorArg) : Message × Bool :=
  if msg.length + 4 > buffer_size then (msg, false)
  else
    if msg.length + 4 + arg.item_size * arg.count > buffer_size then
      ({ msg.write_int32 0 with error_code := RESPONSE_TOO_LONG }, true)
    else
      match arg with
      | .scalars v s =>
          (v.foldl (fun acc e => acc.write_int e s) (msg.write_int32 arg.count), true)
      | .tuples v sizes =>
          (v.foldl (fun acc e =>
              (e.zip sizes).foldl (fun a p => a.write_int p.1 p.2) acc)
            (msg.write_int32 arg.count), true)

/-! ### Shared-memory reads (interface.py) -/

/-- The memory-mapped file: the fixed-size shared buffer plus the cursor.
`buf.length` is the channel's `buffer_size`. -/
structure MFile where
  buf : List Nat
  pos : Nat
  deriving Repr, DecidableEq

/-- mmap.read: returns up to `n` bytes starting at the cursor (clamped at the
end of the region) and advances the cursor by the number of bytes returned. -/
def MFile.read (m : MFile) (n : Nat) : List Nat × MFile :=
  let arr := (m.buf.drop m.pos).take n
  (arr, { m with pos := m.pos + arr.length })

def MFile.tell (m : MFile) : Nat := m.pos

/-- TMInterface._read on an already-read byte string: unpack the bytes; if
decoding fails (`struct.error`, e.g. a short read), report the error through
`Client.on_client_exception` and return 0 instead of propagating.  The
returned Bool records whether the exception hook was invoked.  Totality of
this function is the embedding of "the exception never escapes `_read`". -/
def tmRead (w : Nat) (signed : Bool) (bs : List Nat) : Int × Bool :=
  match structUnpack w signed bs with
  | some v => (v, false)
  | none => (0, true)

/-- TMInterface._read including the mmap read: consume `w` bytes at the
cursor and decode them (0 on failure, per `tmRead`). -/
def readPrim (w : Nat) (signed : Bool) (m : MFile) : Int × MFile :=
  ((tmRead w signed (m.read w).1).1, (m.read w).2)

def read_uint8 (m : MFile) : Int × MFile := readPrim 1 false m

def read_uint16 (m : MFile) : Int × MFile := readPrim 2 false m

def read_int32 (m : MFile) : Int × MFile := readPrim 4 true m

def read_uint32 (m : MFile) : Int × MFile := readPrim 4 false m

/-- TMInterface._read_int: size dispatch (1 unsigned, 2 unsigned, 4 signed;
any other size reads nothing and returns 0). -/
def read_int (size : Nat) (m : MFile) : Int × MFile :=
  if size = 1 then read_uint8 m
  else if size = 2 then read_uint16 m
  else if size = 4 then read_int32 m
  else (0, m)

/-- TMInterface._read_event: an Event is `uint32 time` then `int32 data`;
modelled as the pair `(time, data)`. -/
def read_event (m : MFile) : (Int × Int) × MFile :=
  ((((read_uint32 m).1), (read_int32 (read_uint32 m).2).1), (read_int32 (read_uint32 m).2).2)

/-- The scalar-reading loop of `TMInterface.__read_vector` (`for _ in range(size)`). -/
def readScalars (size : Nat) : Nat → MFile → List Int × MFile
  | 0, m => ([], m)
  | n + 1, m =>
    ((read_int size m).1 :: (readScalars size n (read_int size m).2).1,
     (readScalars size n (read_int size m).2).2)

/-- One tuple of `TMInterface.__read_vector`: one `_read_int` per field size. -/
def readTupleFields : List Nat → MFile → List Int × MFile
  | [], m => ([], m)
  | s :: rest, m =>
    ((read_int s m).1 :: (readTupleFields rest (read_int s m).2).1,
     (readTupleFields rest (read_int s m).2).2)

/-- The tuple-reading loop of `TMInterface.__read_vector`. -/
def readTuples (sizes : List Nat) : Nat → MFile → List (List Int) × MFile
  | 0, m => ([], m)
  | n + 1, m =>
    ((readTupleFields sizes m).1 :: (readTuples sizes n (readTupleFields sizes m).2).1,
     (readTuples sizes n (readTupleFields sizes m).2).2)

/-- TMInterface.__read_vector, scalar branch: guard that the 4-byte count fits
inside the buffer, then read the count and that many scalars. -/
def read_vector_scalar (size : Nat) (m : MFile) : List Int × MFile :=
  if m.tell + 4 > m.buf.length then ([], m)
  else readScalars size (read_int32 m).1.toNat (read_int32 m).2

/-- TMInterface.__read_vector, tuple branch. -/
def read_vector_tuple (sizes : List Nat) (m : MFile) : List (List Int) × MFile :=
  if m.tell + 4 > m.buf.length then ([], m)
  else readTuples sizes (read_int32 m).1.toNat (read_int32 m).2

/-! ### TMInterface.set_input_state (interface.py) -/

/-- The keyword arguments of `set_input_state`: each field is either absent
from `kwargs` (`none`) or supplied.  `left`/`right`/`accelerate`/`brake` are
binary, `steer`/`gas` analog. -/
structure InputStateArgs where
  left : Option Bool := none
  right : Option Bool := none
  accelerate : Option Bool := none
  brake : Option Bool := none
  steer : Option Int := none
  gas : Option Int := none
  deriving Repr, DecidableEq

/-- The `C_SET_INPUT_STATES` message built by `set_input_state` (the
preceding `get_context_mode` / `clear_event_buffer` round trips do not touch
this message and are elided).  Field order and sentinel choices follow the
source: `int(kwargs[...])` or `-1` for binary fields, the raw value or
`MAXINT32` for analog fields. -/
def set_input_state_message (args : InputStateArgs) : Message :=
  let msg : Message := ⟨MessageType.C_SET_INPUT_STATES, 0, []⟩
  let msg := match args.left with
    | some b => msg.write_int32 (if b then 1 else 0)
    | none => msg.write_int32 (-1)
  let msg := match args.right with
    | some b => msg.write_int32 (if b then 1 else 0)
    | none => msg.write_int32 (-1)
  let msg := match args.accelerate with
    | some b => msg.write_int32 (if b then 1 else 0)
    | none => msg.write_int32 (-1)
  let msg := match args.brake with
    | some b => msg.write_int32 (if b then 1 else 0)
    | none => msg.write_int32 (-1)
  let msg := match args.steer with
    | some v => msg.write_int32 v
    | none => msg.write_int32 MAXINT32
  let msg := match args.gas with
    | some v => msg.write_int32 v
    | none => msg.write_int32 MAXINT32
  msg

/-- Spec-side description of how one binary field is encoded: 0/1 when
supplied, sentinel -1 when absent. -/
def encodeBinaryInput : Option Bool → Int
  | none => -1
  | some b => if b then 1 else 0

/-- Spec-side description of how one analog field is encoded: the given
value when supplied, sentinel `MAXINT32` when absent. -/
def encodeAnalogInput : Option Int → Int
  | none => MAXINT32
  | some v => v

/-! ### Bruteforce evaluation (structs.py / interface.py) -/

namespace BFEvaluationDecision

def CONTINUE : Int := 0
def DO_NOTHING : Int := 1
def ACCEPT : Int := 2
def REJECT : Int := 3
def STOP : Int := 4

end BFEvaluationDecision

/-- structs.BFEvaluationResponse: decision plus optional rewind timestamp. -/
structure BFEvaluationResponse where
  decision : Int
  rewind_time : Int
  deriving Repr, DecidableEq

/-- structs.BFEvaluationResponse.__init__ defaults:
`decision = CONTINUE`, `rewind_time = -1`. -/
def BFEvaluationResponse.default : BFEvaluationResponse :=
  ⟨BFEvaluationDecision.CONTINUE, -1⟩

/-- The acknowledgment message built by
`TMInterface._on_bruteforce_validate_call` after the callback returned
`cb` (`none` models a callback that returned `None`/falsy: the source then
substitutes a fresh default `BFEvaluationResponse`). -/
def on_bruteforce_validate_response (msgtype : Int) (cb : Option BFEvaluationResponse) :
    Message :=
  let resp := match cb with
    | none => BFEvaluationResponse.default
    | some r => r
  (((Message.mk MessageType.C_PROCESSED_CALL 0 []).write_int32 msgtype).write_int32
      resp.decision).write_int32 resp.rewind_time

/-! ### SimStateData flag-gated accessors (structs.py) -/

/-- Modelled from the spec: the `SIM_HAS_*` flag bits (`constants.py` is not
under src/); the flags field is a bitmask with one distinct bit per populated
opaque sub-buffer.  The concrete bit positions are irrelevant to the claims. -/
def SIM_HAS_TIMERS : Nat := 0x1

/-- Modelled from the spec: see `SIM_HAS_TIMERS`. -/
def SIM_HAS_DYNA : Nat := 0x2

/-- Modelled from the spec: see `SIM_HAS_TIMERS`. -/
def SIM_HAS_PLAYER_INFO : Nat := 0x40

def EPSILON : Float := 0.00001

/-- List access `l[i]` (in-range use only; accessors below only use
documented fixed offsets). -/
def fget (l : List Float) (i : Nat) : Float := l.getD i 0

def mget (m : List (List Float)) (i j : Nat) : Float := fget (m.getD i []) j

/-- util.quat_to_ypw: quaternion (x, y, z, w) to yaw, pitch, roll. -/
def quat_to_ypw (quat : List Float) : List Float :=
  let t0 := fget quat 2 * fget quat 1 + fget quat 3 * fget quat 0
  if Float.abs (t0 + 0.5) < EPSILON ∨ t0 + 0.5 ≤ 0 then
    let yaw := Float.atan2 (fget quat 1) (fget quat 0)
    [yaw * 2, -1.57079637, 0]
  else if Float.abs (t0 - 0.5) < EPSILON ∨ t0 - 0.5 ≥ 0 then
    let yaw := Float.atan2 (fget quat 1) (fget quat 0)
    [-yaw * 2, 1.57079637, 0]
  else
    let yaw := Float.atan2 (2.0 * (fget quat 2 * fget quat 0 - fget quat 3 * fget quat 1))
      (1.0 - (fget quat 3 * fget quat 3 + fget quat 2 * fget quat 2) * 2.0)
    let roll := Float.asin (2.0 * t0)
    let pitch := Float.atan2 (2.0 * (fget quat 0 * fget quat 1 - fget quat 2 * fget quat 3))
      (1.0 - 2.0 * (fget quat 1 * fget quat 1 + fget quat 3 * fget quat 3))
    [yaw, pitch, roll]

/-- util.mat3_to_quat: 3x3 rotation matrix to quaternion (x, y, z, w). -/
def mat3_to_quat (mat : List (List Float)) : List Float :=
  let trace := mget mat 0 0 + mget mat 1 1 + mget mat 2 2
  if trace > 0 then
    let trace := trace + 1
    let trace_squared := Float.sqrt trace
    let trace := 0.5 / trace_squared
    [trace_squared / 2,
     trace * (mget mat 2 1 - mget mat 1 2),
     trace * (mget mat 0 2 - mget mat 2 0),
     trace * (mget mat 1 0 - mget mat 0 1)]
  else
    let index := if mget mat 1 1 > mget mat 0 0 then 1
      else if mget mat 2 2 > mget mat 0 0 then 2 else 0
    let indexes : List Nat := [1, 2, 0]
    let var_1 := indexes.getD index 0
    let var_2 := indexes.getD var_1 0
    let trace := mget mat index index - (mget mat var_2 var_2 + mget mat var_1 var_1) + 1.0
    let trace_squared := Float.sqrt trace
    let trace := 0.5 / trace_squared
    let quat : List Float := List.replicate 4 0
    let quat := quat.set 0 (trace * (mget mat var_2 var_1 - mget mat var_1 var_2))
    let quat := quat.set (index + 1) (trace_squared / 2)
    let quat := quat.set (var_1 + 1) (trace * (mget mat index var_1 + mget mat var_1 index))
    let quat := quat.set (var_2 + 1) (trace * (mget mat index var_2 + mget mat var_2 index))
    quat

/-- The parts of `structs.HmsDynaStateStruct` the gated accessors read.
The underlying bytes are opaque on the wire; here they are modelled at field
granularity, which is what the `ByteStruct` property accessors expose. -/
structure HmsDynaStateStruct where
  position : List Float
  rotation : List (List Float)
  linear_speed : List Float
  deriving Repr

/-- structs.HmsDynaStruct (only `current_state` is read by the accessors). -/
structure HmsDynaStruct where
  current_state : HmsDynaStateStruct
  deriving Repr

/-- The parts of `structs.PlayerInfoStruct` the gated accessors read. -/
structure PlayerInfoStruct where
  display_speed : Int
  race_time : Int
  deriving Repr, DecidableEq

/-- structs.SimStateData, at the granularity used by its flag-gated
accessors: the flags bitmask plus the sub-buffers those accessors read. -/
structure SimStateData where
  flags : Nat
  timers : List Int
  dyna : HmsDynaStruct
  player_info : PlayerInfoStruct
  deriving Repr

/-- SimStateData.time: gated on `SIM_HAS_TIMERS`; reads `timers[1]` when
populated, returns 0 otherwise. -/
def SimStateData.time (s : SimStateData) : Int :=
  if s.flags &&& SIM_HAS_TIMERS = 0 then 0
  else s.timers.getD 1 0

/-- SimStateData.position: gated on `SIM_HAS_DYNA`. -/
def SimStateData.position (s : SimStateData) : List Float :=
  if s.flags &&& SIM_HAS_DYNA = 0 then [0, 0, 0]
  else s.dyna.current_state.position

/-- SimStateData.velocity: gated on `SIM_HAS_DYNA`. -/
def SimStateData.velocity (s : SimStateData) : List Float :=
  if s.flags &&& SIM_HAS_DYNA = 0 then [0, 0, 0]
  else s.dyna.current_state.linear_speed

/-- SimStateData.display_speed: gated on `SIM_HAS_PLAYER_INFO`. -/
def SimStateData.display_speed (s : SimStateData) : Int :=
  if s.flags &&& SIM_HAS_PLAYER_INFO = 0 then 0
  else s.player_info.display_speed

/-- SimStateData.rotation_matrix: gated on `SIM_HAS_DYNA`; the unset default
is `[[0, 0, 0]] * 3`, the zero matrix. -/
def SimStateData.rotation_matrix (s : SimStateData) : List (List Float) :=
  if s.flags &&& SIM_HAS_DYNA = 0 then [[0, 0, 0], [0, 0, 0], [0, 0, 0]]
  else s.dyna.current_state.rotation

/-- SimStateData.yaw_pitch_roll: gated on `SIM_HAS_DYNA`; converts the
rotation matrix when populated, returns `[0, 0, 0]` otherwise. -/
def SimStateData.yaw_pitch_roll (s : SimStateData) : List Float :=
  if s.flags &&& SIM_HAS_DYNA = 0 then [0, 0, 0]
  else quat_to_ypw (mat3_to_quat s.rotation_matrix)

/-- SimStateData.race_time: gated on `SIM_HAS_PLAYER_INFO`.  The source
returns the Python value `False` when the flag is unset; `bool` is an `int`
subtype in Python and `False == 0`, so the value is modelled as 0. -/
def SimStateData.race_time (s : SimStateData) : Int :=
  if s.flags &&& SIM_HAS_PLAYER_INFO = 0 then 0
  else s.player_info.race_time

/-- SimStateData.rewind_time: `race_time + 10`. -/
def SimStateData.rewind_time (s : SimStateData) : Int :=
  s.race_time + 10

/-! ### Query-style calls: response decoding (interface.py) -/

/-- A raised `interface.ServerException`, carrying the protocol error code
that triggered it. -/
structure ServerExc where
  code : Int
  deriving Repr, DecidableEq

/-- structs.CheckpointData as decoded from the wire: the physical checkpoint
state array and the logical (time, stunts_score) pass array. -/
structure CheckpointData where
  cp_states : List Int
  cp_times : List (List Int)
  deriving Repr, DecidableEq

/-- TMInterface._read_checkpoint_state: reserved int32, then the two vectors. -/
def read_checkpoint_state (m : MFile) : CheckpointData × MFile :=
  let m1 := (read_int32 m).2
  let sts := read_vector_scalar 4 m1
  let tms := read_vector_tuple [4, 4] sts.2
  (⟨sts.1, tms.1⟩, tms.2)

/-- TMInterface.get_checkpoint_state, from the response buffer onward: seek
to the error code at offset 4, raise `ServerException` on `NO_PLAYER_INFO`,
otherwise decode and return the checkpoint data (the send/await/clear steps
do not affect the decoded result). -/
def get_checkpoint_state (buf : List Nat) : Except ServerExc CheckpointData :=
  let m : MFile := ⟨buf, 4⟩
  let ec := (read_int32 m).1
  let m1 := (read_int32 m).2
  if ec = NO_PLAYER_INFO then .error ⟨NO_PLAYER_INFO⟩
  else .ok (read_checkpoint_state m1).1

/-- Modelled from the spec: the semantic control names of the 10-slot
control-name table (`constants.py` with the `*_NAME` strings is not under
src/). -/
inductive ControlName where
  | race_start
  | race_finish
  | accelerate
  | brake
  | left
  | right
  | steer_analog
  | gas_analog
  | respawn
  | horn
  deriving Repr, DecidableEq

/-- One control-name slot assignment of `get_event_buffer`:
`if _id != -1: names[_id] = NAME`.  Python list assignment accepts exactly
the indices in [-len, len): a non-negative index addresses the slot
directly, a negative index counts from the end (`len + id`); any other
index raises an uncaught `IndexError`, modelled as `none`. -/
def assignName (names : List (Option ControlName)) (id : Int) (name : ControlName) :
    Option (List (Option ControlName)) :=
  if id = -1 then some names
  else if 0 ≤ id then
    if id < (names.length : Int) then some (names.set id.toNat (some name)) else none
  else
    if -id ≤ (names.length : Int) then
      some (names.set (names.length - (-id).toNat) (some name))
    else none

/-- The fixed order in which `get_event_buffer` reads the ten name slots. -/
def controlNameOrder : List ControlName :=
  [.race_start, .race_finish, .accelerate, .brake, .left, .right,
   .steer_analog, .gas_analog, .respawn, .horn]

/-- The sequential `_read_int32` / table-assignment blocks of
`get_event_buffer`, one per remaining control name.  An `IndexError` in any
block aborts the whole call (`none`): the remaining blocks never run. -/
def read_control_names_aux :
    List ControlName → List (Option ControlName) → MFile →
    Option (List (Option ControlName) × MFile)
  | [], names, m => some (names, m)
  | name :: rest, names, m =>
    match assignName names (read_int32 m).1 name with
    | none => none
    | some names1 => read_control_names_aux rest names1 (read_int32 m).2

/-- The ten control-name blocks of `get_event_buffer`, starting from the
empty 10-slot table. -/
def read_control_names (m : MFile) : Option (List (Option ControlName) × MFile) :=
  read_control_names_aux controlNameOrder (List.replicate 10 none) m

/-- The ten slot ids `get_event_buffer` reads for the name table, in order
(the values of the ten sequential `_read_int32` calls). -/
def nameIdsAux : Nat → MFile → List Int
  | 0, _ => []
  | n + 1, m => (read_int32 m).1 :: nameIdsAux n (read_int32 m).2

def nameIds (m : MFile) : List Int :=
  nameIdsAux 10 m

/-- eventbuffer.EventBufferData as decoded by `get_event_buffer`; events are
(time, data) pairs. -/
structure EventBufferData where
  events_duration : Int
  control_names : List (Option ControlName)
  events : List (List Int)
  deriving Repr, DecidableEq

/-- TMInterface.get_event_buffer, from the response buffer onward: error code
(read unsigned) at offset 4, `ServerException` on `NO_EVENT_BUFFER`,
otherwise the name table, the duration and the event vector.  The outer
`Option` is the uncaught `IndexError` of a `names[_id]` assignment with an
out-of-range slot id: `none` means the call raises it instead of returning. -/
def get_event_buffer (buf : List Nat) : Option (Except ServerExc EventBufferData) :=
  let m : MFile := ⟨buf, 4⟩
  let ec := (read_uint32 m).1
  let m1 := (read_uint32 m).2
  if ec = NO_EVENT_BUFFER then some (.error ⟨NO_EVENT_BUFFER⟩)
  else
    match read_control_names m1 with
    | none => none
    | some (names, m2) =>
      let dur := read_uint32 m2
      let evs := read_vector_tuple [4, 4] dur.2
      some (.ok ⟨dur.1, names, evs.1⟩)

/-- Modelled from the spec: the documented byte sizes of the opaque
`SimStateData` regions (`constants.py` is not under src/; the spec treats the
regions as "opaque byte regions with documented sizes").  `TIMERS_SIZE`,
`PLUG_SOLID_SIZE` and `CMD_BUFFER_CORE_SIZE` match the field declarations in
structs.py (53 int32 timers, 68- and 264-byte arrays); the remaining values
are representative — no claim depends on them. -/
def TIMERS_SIZE : Nat := 212

/-- Modelled from the spec: see `TIMERS_SIZE`. -/
def DYNA_SIZE : Nat := 1424

/-- Modelled from the spec: see `TIMERS_SIZE`. -/
def SCENE_MOBIL_SIZE : Nat := 2424

/-- Modelled from the spec: see `TIMERS_SIZE`. -/
def SIMULATION_WHEELS_SIZE : Nat := 3056

/-- Modelled from the spec: see `TIMERS_SIZE`. -/
def PLUG_SOLID_SIZE : Nat := 68

/-- Modelled from the spec: see `TIMERS_SIZE`. -/
def CMD_BUFFER_CORE_SIZE : Nat := 264

/-- Modelled from the spec: see `TIMERS_SIZE`. -/
def PLAYER_INFO_SIZE : Nat := 952

/-- Modelled from the spec: see `TIMERS_SIZE`. -/
def INPUT_STATE_SIZE : Nat := 120

/-- The simulation state as decoded off the wire by `get_simulation_state`:
header fields, opaque byte regions, the 8 input events, respawn count and
checkpoint data. -/
structure SimStateRaw where
  version : Int
  context_mode : Int
  flags : Int
  timers : List Nat
  dyna : List Nat
  scene_mobil : List Nat
  simulation_wheels : List Nat
  plug_solid : List Nat
  cmd_buffer_core : List Nat
  player_info : List Nat
  internal_input_state : List Nat
  input_events : List (Int × Int)
  num_respawns : Int
  cp_data : CheckpointData
  deriving Repr, DecidableEq

/-- TMInterface.get_simulation_state, from the response buffer onward.  The
source reads every field in order and only then checks the error code
(raising `ServerException` on `NO_PLAYER_INFO`) before decoding the
checkpoint data. -/
def get_simulation_state (buf : List Nat) : Except ServerExc SimStateRaw :=
  let m : MFile := ⟨buf, 4⟩
  let ec := (read_int32 m).1
  let m1 := (read_int32 m).2
  let version := read_int32 m1
  let context_mode := read_int32 version.2
  let flags := read_uint32 context_mode.2
  let timers := flags.2.read TIMERS_SIZE
  let dyna := timers.2.read DYNA_SIZE
  let scene_mobil := dyna.2.read SCENE_MOBIL_SIZE
  let simulation_wheels := scene_mobil.2.read SIMULATION_WHEELS_SIZE
  let plug_solid := simulation_wheels.2.read PLUG_SOLID_SIZE
  let cmd_buffer_core := plug_solid.2.read CMD_BUFFER_CORE_SIZE
  let player_info := cmd_buffer_core.2.read PLAYER_INFO_SIZE
  let internal_input_state := player_info.2.read INPUT_STATE_SIZE
  let e1 := read_event internal_input_state.2
  let e2 := read_event e1.2
  let e3 := read_event e2.2
  let e4 := read_event e3.2
  let e5 := read_event e4.2
  let e6 := read_event e5.2
  let e7 := read_event e6.2
  let e8 := read_event e7.2
  let num_respawns := read_uint32 e8.2
  if ec = NO_PLAYER_INFO then .error ⟨NO_PLAYER_INFO⟩
  else
    .ok ⟨version.1, context_mode.1, flags.1, timers.1, dyna.1, scene_mobil.1,
      simulation_wheels.1, plug_solid.1, cmd_buffer_core.1, player_info.1,
      internal_input_state.1,
      [e1.1, e2.1, e3.1, e4.1, e5.1, e6.1, e7.1, e8.1],
      num_respawns.1, (read_checkpoint_state num_respawns.2).1⟩

/-- TMInterface.register_custom_command, from the response buffer onward:
error code at offset 4, `ServerException` on `COMMAND_ALREADY_REGISTERED`,
normal return otherwise. -/
def register_custom_command_result (buf : List Nat) : Except ServerExc Unit :=
  let m : MFile := ⟨buf, 4⟩
  let ec := (read_int32 m).1
  if ec = COMMAND_ALREADY_REGISTERED then .error ⟨COMMAND_ALREADY_REGISTERED⟩
  else .ok ()

/-! ### Client lifecycle (interface.py) -/

/-- The observable callback / send actions of the client, in the order they
happen on the worker. -/
inductive TraceEvent where
  | sent (msgtype : Int)
  | on_deregistered
  | on_shutdown
  deriving Repr, DecidableEq, BEq

/-- The lifecycle-relevant mutable state of a `TMInterface` instance. -/
structure IfaceState where
  registered : Bool
  running : Bool
  hasThread : Bool
  deriving Repr, DecidableEq

/-- TMInterface.close: when registered, send `C_DEREGISTER`, fire
`on_deregistered` and drop the thread; in all cases clear `running`.
Returns the new state and the ordered action trace. -/
def close (s : IfaceState) : IfaceState × List TraceEvent :=
  if s.registered then
    ({ s with running := false, hasThread := false },
     [.sent MessageType.C_DEREGISTER, .on_deregistered])
  else
    ({ s with running := false }, [])

/-- The `S_SHUTDOWN` branch of `TMInterface._process_server_message`:
`self.close()` followed by `self.client.on_shutdown(self)`. -/
def process_shutdown (s : IfaceState) : IfaceState × List TraceEvent :=
  ((close s).1, (close s).2 ++ [.on_shutdown])

/-- The registration-relevant mutable state of a `TMInterface` instance.
Clients and worker threads are identified by opaque ids. -/
structure RegState where
  client : Option Nat
  registered : Bool
  thread : Option Nat
  deriving Repr, DecidableEq

/-- TMInterface.register: refuse when a client is already attached or the
instance is already registered; otherwise attach the client and start the
worker thread if none exists.  Returns the Python result, the new state and
whether a new thread was started. -/
def register (s : RegState) (c : Nat) (newThread : Nat) : Bool × RegState × Bool :=
  if s.client.isSome then (false, s, false)
  else if s.registered then (false, s, false)
  else
    let s1 : RegState := { s with registered := false, client := some c }
    if s1.thread.isNone then (true, { s1 with thread := some newThread }, true)
    else (true, s1, false)

/-! ## Helper lemmas -/

theorem natToLE_length : ∀ (w n : Nat), (natToLE w n).length = w := by
  intro w
  induction w with
  | zero => intro n; rfl
  | succ k ih => intro n; simp [natToLE, ih]

theorem packInt_length (w : Nat) (n : Int) : (packInt w n).length = w := by
  unfold packInt
  exact natToLE_length w _

theorem unpackUnsigned_packInt_one (n : Int) (h1 : 0 ≤ n) (h2 : n < 2 ^ 8) :
    unpackUnsigned (packInt 1 n) = n := by
  simp only [packInt, natToLE, leToNat, unpackUnsigned]
  norm_num
  omega

theorem unpackUnsigned_packInt_two (n : Int) (h1 : 0 ≤ n) (h2 : n < 2 ^ 16) :
    unpackUnsigned (packInt 2 n) = n := by
  simp only [packInt, natToLE, leToNat, unpackUnsigned]
  norm_num
  omega

theorem unpackSigned_packInt_four (n : Int) (h1 : -(2 ^ 31) ≤ n) (h2 : n < 2 ^ 31) :
    unpackSigned (packInt 4 n) = n := by
  simp only [packInt, natToLE, leToNat, unpackSigned, List.length]
  norm_num
  omega

/-- Message.write_int appends exactly `writeIntBytes`, leaving type and error
code untouched (the signed/unsigned format split affects acceptance, not
bytes). -/
theorem Message.write_int_eq (m : Message) (n : Int) (size : Nat) :
    m.write_int n size = { m with data := m.data ++ writeIntBytes n size } := by
  unfold Message.write_int writeIntBytes Message.write_uint8 Message.write_int16
    Message.write_uint16 Message.write_int32 Message.write_uint32
  split_ifs <;> simp

theorem foldl_write_int (v : List Int) (s : Nat) (m : Message) :
    v.foldl (fun acc e => acc.write_int e s) m
      = { m with data := m.data ++ v.flatMap (fun e => writeIntBytes e s) } := by
  induction v generalizing m with
  | nil => simp
  | cons x xs ih =>
      rw [List.foldl_cons, ih (m.write_int x s), Message.write_int_eq]
      simp [List.append_assoc]

theorem foldl_write_pairs (ps : List (Int × Nat)) (m : Message) :
    ps.foldl (fun a p => a.write_int p.1 p.2) m
      = { m with data := m.data ++ ps.flatMap (fun p => writeIntBytes p.1 p.2) } := by
  induction ps generalizing m with
  | nil => simp
  | cons x xs ih =>
      rw [List.foldl_cons, ih (m.write_int x.1 x.2), Message.write_int_eq]
      simp [List.append_assoc]

theorem foldl_write_tuples (v : List (List Int)) (sizes : List Nat) (m : Message) :
    v.foldl (fun acc e => (e.zip sizes).foldl (fun a p => a.write_int p.1 p.2) acc) m
      = { m with data := m.data
          ++ v.flatMap (fun e => (e.zip sizes).flatMap (fun p => writeIntBytes p.1 p.2)) } := by
  induction v generalizing m with
  | nil => simp
  | cons x xs ih =>
      rw [List.foldl_cons, foldl_write_pairs, ih]
      simp [List.append_assoc]

/-- A slot assignment succeeds exactly on Python's accepted index range
[-len, len) (or the skip sentinel -1), and preserves the table length. -/
theorem assignName_inRange (names : List (Option ControlName)) (id : Int)
    (name : ControlName) (h1 : -(names.length : Int) ≤ id)
    (h2 : id < (names.length : Int)) :
    ∃ names1, assignName names id name = some names1 ∧ names1.length = names.length := by
  unfold assignName
  split_ifs <;>
    first
      | exact ⟨names, rfl, rfl⟩
      | exact ⟨_, rfl, List.length_set ..⟩
      | omega

theorem read_control_names_aux_isSome (order : List ControlName) :
    ∀ (names : List (Option ControlName)) (m : MFile),
    (∀ id ∈ nameIdsAux order.length m,
      -(names.length : Int) ≤ id ∧ id < (names.length : Int)) →
    ∃ p, read_control_names_aux order names m = some p := by
  induction order with
  | nil => exact fun names m _ => ⟨(names, m), rfl⟩
  | cons name rest ih =>
      intro names m h
      have hmem : (read_int32 m).1 ∈ nameIdsAux (name :: rest).length m := by
        simp [nameIdsAux]
      obtain ⟨h1, h2⟩ := h _ hmem
      obtain ⟨names1, hset, hlen⟩ := assignName_inRange names (read_int32 m).1 name h1 h2
      obtain ⟨p, hp⟩ := ih names1 (read_int32 m).2 (by
        intro id hid
        have hmem2 : id ∈ nameIdsAux (name :: rest).length m := by
          simp only [List.length_cons, nameIdsAux]
          exact List.mem_cons_of_mem _ hid
        rw [hlen]
        exact h id hmem2)
      exact ⟨p, by unfold read_control_names_aux; rw [hset]; exact hp⟩

/-! ## Claim theorems -/

/-- C2: for every integer v in [-65536, 65536], and for every v in the
extended range [-6553600, 6553600],
`data_to_analog_value (analog_value_to_data v) = v`. -/
theorem analog_value_roundtrip (v : Int) :
    (-65536 ≤ v → v ≤ 65536 → data_to_analog_value (analog_value_to_data v) = v) ∧
    (-6553600 ≤ v → v ≤ 6553600 → data_to_analog_value (analog_value_to_data v) = v) := by
  constructor <;>
    · intro h1 h2
      unfold data_to_analog_value analog_value_to_data toInt32 toInt64
      omega

/-- C2 witness: the round trip applied at concrete points of both ranges. -/
theorem analog_value_roundtrip_witness :
    data_to_analog_value (analog_value_to_data 65536) = 65536 ∧
    data_to_analog_value (analog_value_to_data (-6553600)) = -6553600 :=
  ⟨(analog_value_roundtrip 65536).1 (by decide) (by decide),
   (analog_value_roundtrip (-6553600)).2 (by decide) (by decide)⟩

/-- C3 counterexample: the 0xFFFFFFFF sentinel does not decode back as
unsigned.  `Message.write_int` encodes it with the unsigned format, but
`_read_int` at size 4 uses the signed `_read_int32`, so the bytes decode to
-1, not 0xFFFFFFFF. -/
theorem write_read_sentinel_counterexample :
    (read_int 4 ⟨((Message.mk 0 0 []).write_int 0xffffffff 4).data, 0⟩).1 = -1 ∧
    (-1 : Int) ≠ 0xffffffff := by
  exact ⟨by decide, by decide⟩

/-- C3 amended: reading back a value written with `Message.write_int`
returns it for size 1 on [0, 255], size 2 on [0, 65535] and size 4 on
[-2^31, 2^31 - 1].  (Out of these ranges the round trip fails: size-2
negatives decode shifted by 2^16 and the unsigned sentinel 0xFFFFFFFF
decodes as the signed -1 of the same bit pattern.) -/
theorem write_read_int_roundtrip (n : Int) (size : Nat)
    (h : (size = 1 ∧ 0 ≤ n ∧ n < 2 ^ 8) ∨ (size = 2 ∧ 0 ≤ n ∧ n < 2 ^ 16) ∨
      (size = 4 ∧ -(2 ^ 31) ≤ n ∧ n < 2 ^ 31)) :
    (read_int size ⟨((Message.mk 0 0 []).write_int n size).data, 0⟩).1 = n := by
  have hb : ((Message.mk 0 0 []).write_int n size).data = writeIntBytes n size := by
    rw [Message.write_int_eq]
    simp
  rw [hb]
  rcases h with ⟨hs, h1, h2⟩ | ⟨hs, h1, h2⟩ | ⟨hs, h1, h2⟩ <;> subst hs
  · have hlen : (writeIntBytes n 1).length = 1 := by
      simp [writeIntBytes, packInt_length]
    simp only [read_int, if_pos rfl, read_uint8, readPrim, MFile.read, List.drop_zero,
      tmRead, structUnpack]
    rw [List.take_of_length_le (by omega)]
    simp only [hlen, if_pos rfl]
    simpa [writeIntBytes] using unpackUnsigned_packInt_one n h1 h2
  · have hlen : (writeIntBytes n 2).length = 2 := by
      simp [writeIntBytes, packInt_length]
    simp only [read_int, reduceIte, read_uint16, readPrim, MFile.read, List.drop_zero,
      tmRead, structUnpack]
    rw [List.take_of_length_le (by omega)]
    simp only [hlen, if_pos rfl]
    simpa [writeIntBytes] using unpackUnsigned_packInt_two n h1 h2
  · have hlen : (writeIntBytes n 4).length = 4 := by
      simp [writeIntBytes, packInt_length]
    simp only [read_int, reduceIte, read_int32, readPrim, MFile.read, List.drop_zero,
      tmRead, structUnpack]
    rw [List.take_of_length_le (by omega)]
    simp only [hlen, if_pos rfl]
    simpa [writeIntBytes] using unpackSigned_packInt_four n h1 h2

/-- C3 witness: concrete round trips at each size. -/
theorem write_read_int_roundtrip_witness :
    (read_int 1 ⟨((Message.mk 0 0 []).write_int 200 1).data, 0⟩).1 = 200 ∧
    (read_int 2 ⟨((Message.mk 0 0 []).write_int 65535 2).data, 0⟩).1 = 65535 ∧
    (read_int 4 ⟨((Message.mk 0 0 []).write_int (-12345) 4).data, 0⟩).1 = -12345 :=
  ⟨write_read_int_roundtrip 200 1 (by decide),
   write_read_int_roundtrip 65535 2 (by decide),
   write_read_int_roundtrip (-12345) 4 (by decide)⟩

/-- C1 counterexample: when even the 4-byte count does not fit
(`len(msg) + 4 > buffer_size`, a special case of the claim's overflow
condition), `_write_vector` returns `False` having written nothing at all:
no zero count is emitted and `error_code` stays 0 instead of becoming
`RESPONSE_TOO_LONG`. -/
theorem write_vector_counterexample :
    (Message.mk 17 0 []).length + 4 + (VectorArg.scalars [5] 4).item_size
        * (VectorArg.scalars [5] 4).count > 8 ∧
    write_vector 8 (Message.mk 17 0 []) (.scalars [5] 4) = (Message.mk 17 0 [], false) ∧
    (Message.mk 17 0 []).data ≠ packInt 4 0 ∧
    (Message.mk 17 0 []).error_code ≠ RESPONSE_TOO_LONG := by
  refine ⟨by decide, by decide, by decide, by decide⟩

/-- C1 amended: the capacity policy of `_write_vector`, with the boundary
case the claim misses made explicit.  When even the 4-byte count does not
fit, nothing is written and `False` is returned; when the count fits but the
elements would overflow, exactly one zero int32 count is written,
`error_code` becomes `RESPONSE_TOO_LONG`, and no element bytes are appended;
otherwise the count and all elements are written.  In no case is a partial
element sequence written.  (The `wf`/`inRange` hypotheses record when the
Python element loop itself cannot raise.) -/
theorem write_vector_capacity_policy (buffer_size : Nat) (msg : Message) (arg : VectorArg)
    (hwf : arg.wf) (hr : arg.inRange) :
    (msg.length + 4 > buffer_size → write_vector buffer_size msg arg = (msg, false)) ∧
    (msg.length + 4 ≤ buffer_size →
      buffer_size < msg.length + 4 + arg.item_size * arg.count →
      write_vector buffer_size msg arg
        = (⟨msg._type, RESPONSE_TOO_LONG, msg.data ++ packInt 4 0⟩, true)) ∧
    (msg.length + 4 + arg.item_size * arg.count ≤ buffer_size →
      write_vector buffer_size msg arg
        = (⟨msg._type, msg.error_code, msg.data ++ packInt 4 arg.count ++ arg.encodeElems⟩,
           true)) := by
  refine ⟨fun h => ?_, fun h1 h2 => ?_, fun h => ?_⟩
  · unfold write_vector
    rw [if_pos h]
  · unfold write_vector
    rw [if_neg (by omega), if_pos (by omega)]
    simp [Message.write_int32]
  · cases arg with
    | scalars v s =>
        simp only [VectorArg.item_size, VectorArg.count] at h
        unfold write_vector
        rw [if_neg (by omega),
          if_neg (by simp only [VectorArg.item_size, VectorArg.count]; omega)]
        dsimp only
        rw [foldl_write_int]
        simp [Message.write_int32, VectorArg.encodeElems, VectorArg.count, List.append_assoc]
    | tuples v sizes =>
        simp only [VectorArg.item_size, VectorArg.count] at h
        unfold write_vector
        rw [if_neg (by omega),
          if_neg (by simp only [VectorArg.item_size, VectorArg.count]; omega)]
        dsimp only
        rw [foldl_write_tuples]
        simp [Message.write_int32, VectorArg.encodeElems, VectorArg.count, List.append_assoc]

/-- C1 witness: the three branches at concrete inputs (success, count does
not fit, elements overflow). -/
theorem write_vector_capacity_policy_witness :
    write_vector 8 (Message.mk 28 0 []) (.scalars [5] 4) = (Message.mk 28 0 [], false) ∧
    write_vector 13 (Message.mk 28 0 []) (.scalars [5] 4)
      = (⟨28, RESPONSE_TOO_LONG, packInt 4 0⟩, true) ∧
    write_vector 64 (Message.mk 28 0 []) (.scalars [5] 4)
      = (⟨28, 0, packInt 4 1 ++ packInt 4 5⟩, true) := by
  have hwf : (VectorArg.scalars [5] 4).wf := by trivial
  have hr : (VectorArg.scalars [5] 4).inRange := by
    show ∀ e ∈ [(5 : Int)], writeIntOk e 4
    intro e he
    obtain rfl := List.mem_singleton.mp he
    unfold writeIntOk
    norm_num
  refine ⟨?_, ?_, ?_⟩
  · exact (write_vector_capacity_policy 8 (Message.mk 28 0 []) (.scalars [5] 4) hwf hr).1
      (by decide)
  · have h := (write_vector_capacity_policy 13 (Message.mk 28 0 []) (.scalars [5] 4) hwf hr).2.1
      (by decide) (by decide)
    simpa using h
  · have h := (write_vector_capacity_policy 64 (Message.mk 28 0 []) (.scalars [5] 4) hwf hr).2.2
      (by decide)
    simpa [VectorArg.encodeElems, VectorArg.count, writeIntBytes] using h

/-- C4: the `C_SET_INPUT_STATES` payload is the six fields in the fixed
order left, right, accelerate, brake, steer, gas, each as one int32; absent
binary fields encode as -1, absent analog fields as `MAXINT32`, supplied
binary fields as 0/1 and supplied analog fields as their value. -/
theorem set_input_state_encoding (args : InputStateArgs) :
    (set_input_state_message args)._type = MessageType.C_SET_INPUT_STATES ∧
    (set_input_state_message args).data
      = packInt 4 (encodeBinaryInput args.left) ++ packInt 4 (encodeBinaryInput args.right)
        ++ packInt 4 (encodeBinaryInput args.accelerate)
        ++ packInt 4 (encodeBinaryInput args.brake)
        ++ packInt 4 (encodeAnalogInput args.steer)
        ++ packInt 4 (encodeAnalogInput args.gas) := by
  obtain ⟨l, r, a, b, st, g⟩ := args
  constructor
  · cases l <;> cases r <;> cases a <;> cases b <;> cases st <;> cases g <;> rfl
  · cases l <;> cases r <;> cases a <;> cases b <;> cases st <;> cases g <;>
      simp [set_input_state_message, Message.write_int32, encodeBinaryInput, encodeAnalogInput]

/-- C5: the bruteforce-evaluate acknowledgment is always a `C_PROCESSED_CALL`
message carrying the original message type, a decision and a rewind
timestamp; when the callback returned nothing the decision is
`CONTINUE` (0) and the rewind time -1. -/
theorem bruteforce_response_default (mt : Int) (cb : Option BFEvaluationResponse) :
    (on_bruteforce_validate_response mt cb)._type = MessageType.C_PROCESSED_CALL ∧
    (∀ r, cb = some r → (on_bruteforce_validate_response mt cb).data
        = packInt 4 mt ++ packInt 4 r.decision ++ packInt 4 r.rewind_time) ∧
    (cb = none → (on_bruteforce_validate_response mt cb).data
        = packInt 4 mt ++ packInt 4 BFEvaluationDecision.CONTINUE ++ packInt 4 (-1)) := by
  refine ⟨?_, ?_, ?_⟩
  · cases cb <;> rfl
  · intro r h
    subst h
    simp [on_bruteforce_validate_response, Message.write_int32]
  · intro h
    subst h
    simp [on_bruteforce_validate_response, Message.write_int32, BFEvaluationResponse.default]

/-- C5 witness: the default response for a callback that opted out. -/
theorem bruteforce_response_default_witness :
    (on_bruteforce_validate_response 11 none).data
      = packInt 4 11 ++ packInt 4 BFEvaluationDecision.CONTINUE ++ packInt 4 (-1) :=
  (bruteforce_response_default 11 none).2.2 rfl

/-- C6: every flag-gated accessor checks its flag bit first and returns the
documented zero/default when the bit is unset — `time` 0 without
`SIM_HAS_TIMERS`; `position`, `velocity`, `yaw_pitch_roll` the zero vector
and `rotation_matrix` the zero matrix without `SIM_HAS_DYNA`;
`display_speed` and `race_time` zero without `SIM_HAS_PLAYER_INFO`.  The
defaults are constants, so no accessor depends on (reads) the unpopulated
sub-buffer. -/
theorem simstate_flag_gated_defaults (s : SimStateData) :
    (s.flags &&& SIM_HAS_TIMERS = 0 → s.time = 0) ∧
    (s.flags &&& SIM_HAS_DYNA = 0 →
      s.position = [0, 0, 0] ∧ s.velocity = [0, 0, 0] ∧ s.yaw_pitch_roll = [0, 0, 0] ∧
      s.rotation_matrix = [[0, 0, 0], [0, 0, 0], [0, 0, 0]]) ∧
    (s.flags &&& SIM_HAS_PLAYER_INFO = 0 → s.display_speed = 0 ∧ s.race_time = 0) := by
  refine ⟨fun h => ?_, fun h => ⟨?_, ?_, ?_, ?_⟩, fun h => ⟨?_, ?_⟩⟩ <;>
    simp [SimStateData.time, SimStateData.position, SimStateData.velocity,
      SimStateData.yaw_pitch_roll, SimStateData.rotation_matrix,
      SimStateData.display_speed, SimStateData.race_time, h]

/-- C6 witness: a state with all flag bits clear but populated sub-buffers
still yields the defaults. -/
theorem simstate_flag_gated_defaults_witness :
    (SimStateData.mk 0 [3, 4]
      ⟨⟨[1, 2, 3], [[1, 0, 0], [0, 1, 0], [0, 0, 1]], [4, 5, 6]⟩⟩ ⟨99, 88⟩).time = 0 ∧
    (SimStateData.mk 0 [3, 4]
      ⟨⟨[1, 2, 3], [[1, 0, 0], [0, 1, 0], [0, 0, 1]], [4, 5, 6]⟩⟩ ⟨99, 88⟩).position
        = [0, 0, 0] ∧
    (SimStateData.mk 0 [3, 4]
      ⟨⟨[1, 2, 3], [[1, 0, 0], [0, 1, 0], [0, 0, 1]], [4, 5, 6]⟩⟩ ⟨99, 88⟩).display_speed
        = 0 :=
  ⟨(simstate_flag_gated_defaults (SimStateData.mk 0 [3, 4]
      ⟨⟨[1, 2, 3], [[1, 0, 0], [0, 1, 0], [0, 0, 1]], [4, 5, 6]⟩⟩ ⟨99, 88⟩)).1 rfl,
   ((simstate_flag_gated_defaults (SimStateData.mk 0 [3, 4]
      ⟨⟨[1, 2, 3], [[1, 0, 0], [0, 1, 0], [0, 0, 1]], [4, 5, 6]⟩⟩ ⟨99, 88⟩)).2.1 rfl).1,
   ((simstate_flag_gated_defaults (SimStateData.mk 0 [3, 4]
      ⟨⟨[1, 2, 3], [[1, 0, 0], [0, 1, 0], [0, 0, 1]], [4, 5, 6]⟩⟩ ⟨99, 88⟩)).2.2 rfl).1⟩

/-- C7 counterexample: a response buffer with error code 0 whose first
control-name slot id is 10 makes `get_event_buffer` raise an uncaught
`IndexError` from `names[10] = BINARY_RACE_START_NAME` (the table has
indices 0..9) — it does not return normally with the decoded result, and
the exception raised is not a `ServerException`. -/
theorem query_error_zero_counterexample :
    (read_uint32 ⟨[0, 0, 0, 0, 0, 0, 0, 0, 10, 0, 0, 0], 4⟩).1 = 0 ∧
    get_event_buffer [0, 0, 0, 0, 0, 0, 0, 0, 10, 0, 0, 0] = none := by
  exact ⟨rfl, rfl⟩

/-- C7 amended: the protocol-state error code decides between a raised
`ServerException` and a normal return: `get_checkpoint_state` and
`get_simulation_state` raise exactly on `NO_PLAYER_INFO`,
`get_event_buffer` on `NO_EVENT_BUFFER` (error code read unsigned there),
`register_custom_command` on `COMMAND_ALREADY_REGISTERED`.  On error code 0,
`get_checkpoint_state`, `get_simulation_state` and `register_custom_command`
return normally with the decoded result; `get_event_buffer` returns normally
provided each of the ten control-name slot ids it reads is a valid Python
index of the 10-slot table (in [-10, 9]) — an out-of-range id instead
raises an uncaught `IndexError`. -/
theorem query_error_code_gates (buf : List Nat) :
    ((read_int32 ⟨buf, 4⟩).1 = NO_PLAYER_INFO → (get_checkpoint_state buf).isOk = false) ∧
    ((read_int32 ⟨buf, 4⟩).1 = 0 → (get_checkpoint_state buf).isOk = true) ∧
    ((read_uint32 ⟨buf, 4⟩).1 = NO_EVENT_BUFFER →
      get_event_buffer buf = some (Except.error ⟨NO_EVENT_BUFFER⟩)) ∧
    ((read_uint32 ⟨buf, 4⟩).1 = 0 →
      (∀ id ∈ nameIds (read_uint32 ⟨buf, 4⟩).2, -10 ≤ id ∧ id ≤ 9) →
      ∃ d, get_event_buffer buf = some (Except.ok d)) ∧
    ((read_int32 ⟨buf, 4⟩).1 = NO_PLAYER_INFO → (get_simulation_state buf).isOk = false) ∧
    ((read_int32 ⟨buf, 4⟩).1 = 0 → (get_simulation_state buf).isOk = true) ∧
    ((read_int32 ⟨buf, 4⟩).1 = COMMAND_ALREADY_REGISTERED →
      (register_custom_command_result buf).isOk = false) ∧
    ((read_int32 ⟨buf, 4⟩).1 = 0 → (register_custom_command_result buf).isOk = true) := by
  refine ⟨fun h => ?_, fun h => ?_, fun h => ?_, fun h hids => ?_, fun h => ?_, fun h => ?_,
    fun h => ?_, fun h => ?_⟩
  case refine_3 =>
    simp [get_event_buffer, h, NO_EVENT_BUFFER]
  case refine_4 =>
    have hord : controlNameOrder.length = 10 := rfl
    obtain ⟨p, hp⟩ := read_control_names_aux_isSome controlNameOrder
      (List.replicate 10 none) (read_uint32 ⟨buf, 4⟩).2 (by
        rw [hord]
        intro id hid
        have := hids id hid
        simp only [List.length_replicate]
        omega)
    refine ⟨⟨(read_uint32 p.2).1, p.1,
      (read_vector_tuple [4, 4] (read_uint32 p.2).2).1⟩, ?_⟩
    simp only [get_event_buffer, h, NO_EVENT_BUFFER]
    rw [if_neg (by decide)]
    unfold read_control_names
    rw [hp]
  all_goals
    simp [get_checkpoint_state, get_simulation_state,
      register_custom_command_result, h, NO_PLAYER_INFO,
      COMMAND_ALREADY_REGISTERED, Except.isOk, Except.toBool]

/-- C7 witness: concrete response buffers for each error and for the normal
return of each call (the all-zero buffer reads every slot id as 0, a valid
index). -/
theorem query_error_code_gates_witness :
    (get_checkpoint_state [0, 0, 0, 0, 4, 0, 0, 0]).isOk = false ∧
    (get_checkpoint_state (List.replicate 8 0)).isOk = true ∧
    get_event_buffer [0, 0, 0, 0, 3, 0, 0, 0] = some (Except.error ⟨NO_EVENT_BUFFER⟩) ∧
    (∃ d, get_event_buffer (List.replicate 8 0) = some (Except.ok d)) ∧
    (get_simulation_state [0, 0, 0, 0, 4, 0, 0, 0]).isOk = false ∧
    (get_simulation_state (List.replicate 8 0)).isOk = true ∧
    (register_custom_command_result [0, 0, 0, 0, 5, 0, 0, 0]).isOk = false ∧
    (register_custom_command_result (List.replicate 8 0)).isOk = true :=
  ⟨(query_error_code_gates _).1 (by decide),
   (query_error_code_gates _).2.1 (by decide),
   (query_error_code_gates _).2.2.1 (by decide),
   (query_error_code_gates _).2.2.2.1 (by decide) (by decide),
   (query_error_code_gates _).2.2.2.2.1 (by decide),
   (query_error_code_gates _).2.2.2.2.2.1 (by decide),
   (query_error_code_gates _).2.2.2.2.2.2.1 (by decide),
   (query_error_code_gates _).2.2.2.2.2.2.2 (by decide)⟩

/-- C8: when decoding fails (`struct.error`), `_read` reports the error
through `on_client_exception` (the Bool component) and returns 0; it is a
total function, so the exception never propagates to the caller and the
polling worker survives the bad frame. -/
theorem read_degrades_to_zero (w : Nat) (signed : Bool) (bs : List Nat)
    (h : structUnpack w signed bs = none) :
    tmRead w signed bs = (0, true) := by
  unfold tmRead
  rw [h]

/-- C8 witness: a short read of two bytes where four were expected. -/
theorem read_degrades_to_zero_witness :
    tmRead 4 true [1, 2] = (0, true) :=
  read_degrades_to_zero 4 true [1, 2] (by decide)

/-- C9 counterexample: on `S_SHUTDOWN` with a registered client, the trace
is deregister-send, `on_deregistered`, `on_shutdown` — so `on_deregistered`
fires strictly before `on_shutdown`, contradicting the claimed order. -/
theorem shutdown_callback_order_counterexample :
    (process_shutdown ⟨true, true, true⟩).2
      = [.sent MessageType.C_DEREGISTER, .on_deregistered, .on_shutdown] ∧
    (process_shutdown ⟨true, true, true⟩).2.indexOf .on_deregistered
      < (process_shutdown ⟨true, true, true⟩).2.indexOf .on_shutdown := by
  exact ⟨by decide, by decide⟩

/-- C9 amended: on `S_SHUTDOWN` the client immediately closes (`running`
becomes false) and, when it was registered, fires `on_deregistered` before
`on_shutdown` (the reverse of the claimed order); when not registered only
`on_shutdown` fires. -/
theorem shutdown_closes_then_notifies (s : IfaceState) :
    (process_shutdown s).1.running = false ∧
    (s.registered = true →
      (process_shutdown s).2
        = [.sent MessageType.C_DEREGISTER, .on_deregistered, .on_shutdown]) ∧
    (s.registered = false → (process_shutdown s).2 = [.on_shutdown]) := by
  obtain ⟨r, run, th⟩ := s
  cases r <;> simp [process_shutdown, close]

/-- C9 witness: the registered case. -/
theorem shutdown_closes_then_notifies_witness :
    (process_shutdown ⟨true, true, true⟩).1.running = false ∧
    (process_shutdown ⟨true, true, true⟩).2
      = [.sent MessageType.C_DEREGISTER, .on_deregistered, .on_shutdown] :=
  ⟨(shutdown_closes_then_notifies ⟨true, true, true⟩).1,
   (shutdown_closes_then_notifies ⟨true, true, true⟩).2.1 rfl⟩

/-- C10: `register` returns False and leaves the whole state unchanged (no
thread started) when a client is already attached or the instance is already
registered; and it returns True only when no client was attached, in which
case the given client is attached. -/
theorem register_refuses_when_attached (s : RegState) (c newThread : Nat) :
    (s.client.isSome = true ∨ s.registered = true →
      register s c newThread = (false, s, false)) ∧
    ((register s c newThread).1 = true →
      s.client = none ∧ (register s c newThread).2.1.client = some c) := by
  obtain ⟨cl, r, th⟩ := s
  cases cl <;> cases r <;> cases th <;> simp [register]

/-- C10 witness: a second registration against an attached client is refused
with the state untouched. -/
theorem register_refuses_when_attached_witness :
    register ⟨some 1, true, some 2⟩ 3 4 = (false, ⟨some 1, true, some 2⟩, false) :=
  (register_refuses_when_attached ⟨some 1, true, some 2⟩ 3 4).1 (Or.inl rfl)
